import Mathlib

/-!
Shallow embedding of `Telegram/SourceFiles/history/view/controls/
history_view_voice_record_bar.cpp` (the press-and-hold voice message
recording bar) and proofs of its specified properties.

Modelling conventions:
* C++ `int` is modelled as `Int`; Lean's `/` and `%` on `Int` agree with
  C++ truncating division on the non-negative operands these functions are
  verified on.
* `float64` values (animation/lock progress, duration arithmetic) are
  modelled as exact rationals `ℚ`; `std::clamp` is translated literally.
* `rpl::variable<T>` is a stored value whose `changes()` stream fires
  exactly when an assignment changes the stored value; event streams are
  modelled as explicit lists of emitted events.
* The capture collaborator (`Media::Capture::instance()`) is external: its
  final result is passed in as data, and `start/stop` commands issued to it
  are recorded as events.
* `Media::Player::kDefaultFrequency` (the backend's fixed sample rate) is
  declared in a header outside this translation unit, so every definition
  that needs it takes the positive frequency `freq` as a parameter; the
  shipped value 48000 is used in concrete witnesses.
-/

namespace VoiceBar

/-- `kAudioVoiceMaxLength = 100 * 60` — 100 minutes, in seconds. -/
def kAudioVoiceMaxLength : Int := 100 * 60

/-- `kMaxSamples = kDefaultFrequency * kAudioVoiceMaxLength`, parametrised by
the backend sample rate `freq`. -/
def kMaxSamples (freq : Int) : Int := freq * kAudioVoiceMaxLength

/-- `kPrecision = 10`. -/
def kPrecision : Int := 10

/-- `Duration(int samples) { return samples / kDefaultFrequency; }` -/
def Duration (freq : Int) (samples : Int) : Int := samples / freq

/-- Modelled from the spec: `Ui::FormatDurationText` lives in
`ui/text/format_values.cpp`, outside this translation unit.  The spec's
examples ("0:00", "0:01" before the decimal tail) show whole seconds
rendered as minutes, a colon, and two-digit seconds. -/
def FormatDurationText (seconds : Int) : String :=
  toString (seconds / 60) ++ ":"
    ++ (if seconds % 60 < 10 then "0" else "")
    ++ toString (seconds % 60)

/-- `FormatVoiceDuration(int samples)`: `duration = kPrecision *
(float64(samples) / kDefaultFrequency)` truncated to `int` (the float64
arithmetic is modelled as exact rational arithmetic, whose truncation on
this domain is `(kPrecision * samples) / freq`), then
`FormatDurationText(duration / kPrecision)`, the system decimal point `dp`,
and `duration % kPrecision`. -/
def FormatVoiceDuration (freq : Int) (dp : String) (samples : Int) : String :=
  let duration : Int := (kPrecision * samples) / freq
  FormatDurationText (duration / kPrecision) ++ dp ++ toString (duration % kPrecision)

/-- A pixel point, as Qt's integer `QPoint`. -/
structure Point where
  x : Int
  y : Int
deriving DecidableEq, Repr

/-- `RecordLevel::inCircle(const QPoint &localPos)`: bounding-box rejects,
Manhattan accept, then the exact square test.  `radii` is
`st::historyRecordLevelMaxRadius`, `center` is `_center`. -/
def inCircle (radii center : Int) (localPos : Point) : Bool :=
  let dx := |localPos.x - center|
  if dx > radii then false
  else
    let dy := |localPos.y - center|
    if dy > radii then false
    else if dx + dy ≤ radii then true
    else decide (dx * dx + dy * dy ≤ radii * radii)

/-- From the spec's words, for the refinement claim: a point is inside iff
its Euclidean distance from the center is within the radius, i.e.
`dx² + dy² ≤ radii²`. -/
def inCircleEuclid (radii center : Int) (localPos : Point) : Bool :=
  let dx := |localPos.x - center|
  let dy := |localPos.y - center|
  decide (dx * dx + dy * dy ≤ radii * radii)

/-- `std::clamp(v, lo, hi)`. -/
def clamp (v lo hi : ℚ) : ℚ := if v < lo then lo else if hi < v then hi else v

/-- `QWidget::mapFromGlobal`: global position minus the widget origin. -/
def mapFromGlobal (origin globalPos : Point) : Point :=
  ⟨globalPos.x - origin.x, globalPos.y - origin.y⟩

/-- `VoiceRecordBar::computeAndSetLockProgress(QPoint globalPos)`: the
progress handed to `_lock->requestPaintProgress` — `localPos.y()` divided by
`float64(higher - lower)` with `higher = 0`, `lower = _lock->height()`,
clamped to `[0, 1]`.  `origin` is the bar's global origin, `lockHeight` is
`_lock->height()`. -/
def computeAndSetLockProgress (origin : Point) (lockHeight : Int)
    (globalPos : Point) : ℚ :=
  let localPos := mapFromGlobal origin globalPos
  let lower := lockHeight
  let higher : Int := 0
  let progress : ℚ := (localPos.y : ℚ) / ((higher - lower : Int) : ℚ)
  clamp progress 0 1

/-! ## RecordLock -/

/-- The state of a `RecordLock` widget: its visibility and the stored
`rpl::variable<float64> _progress`. -/
structure LockState where
  hidden : Bool
  progress : ℚ
deriving DecidableEq, Repr

namespace RecordLock

/-- `RecordLock::isLocked(): _progress.current() == 1.`. -/
def isLocked (s : LockState) : Bool := decide (s.progress = 1)

/-- `RecordLock::requestPaintProgress(float64 progress)`: a no-op while
hidden or already locked; otherwise stores the value. -/
def requestPaintProgress (p : ℚ) (s : LockState) : LockState :=
  if s.hidden || isLocked s then s else { s with progress := p }

/-- Whether one `requestPaintProgress` step fires the `locks()` stream:
`_progress.changes()` emits when the assignment changes the stored value,
and the emission passes the `isLocked()` filter. -/
def lockFires (s s' : LockState) : Bool :=
  decide (s.progress ≠ s'.progress) && isLocked s'

/-- Run a session's sequence of `requestPaintProgress` calls. -/
def run (s : LockState) : List ℚ → LockState
  | [] => s
  | p :: ps => run (requestPaintProgress p s) ps

/-- How many times the `locks()` ("locked") event fires over a sequence of
`requestPaintProgress` calls. -/
def countLockFires (s : LockState) : List ℚ → Nat
  | [] => 0
  | p :: ps =>
    (if lockFires s (requestPaintProgress p s) then 1 else 0)
      + countLockFires (requestPaintProgress p s) ps

/-- The lock state at the start of a recording session: shown with the
reset progress `0.`. -/
def sessionStart : LockState := ⟨false, 0⟩

end RecordLock

/-! ## VoiceRecordBar session state -/

/-- The final data delivered by the capture collaborator's
`stop(callback)`: `Result { bytes, waveform, samples }`. -/
structure CaptureResult where
  bytes : List Nat
  waveform : List Nat
  samples : Int
deriving DecidableEq, Repr

/-- Observable output of the bar: commands issued to the capture
collaborator and events fired on the bar's outgoing streams. -/
inductive OutEvent where
  /-- `instance()->stop()` — stop capture, discarding its result. -/
  | captureStopDiscard : OutEvent
  /-- `instance()->stop(callback)` — stop capture, asking for the result. -/
  | captureStopWithResult : OutEvent
  /-- `_sendVoiceRequests.fire({bytes, waveform, duration})` — a
  `VoiceClipResult` delivery. -/
  | voiceToSend (bytes waveform : List Nat) (duration : Int) : OutEvent
  /-- `_recording.changes()` — a recording-state-changed notification. -/
  | recordingState (value : Bool) : OutEvent
  /-- `_sendActionUpdates.fire({RecordVoice, progress})`. -/
  | sendAction (progress : Int) : OutEvent
deriving DecidableEq, Repr

/-- Is an event a `VoiceClipResult` emission? -/
def OutEvent.isVoice : OutEvent → Bool
  | .voiceToSend _ _ _ => true
  | _ => false

/-- Is an event the recording-state-changed(false) notification? -/
def OutEvent.isRecStateFalse : OutEvent → Bool
  | .recordingState false => true
  | _ => false

/-- The session-relevant state of a `VoiceRecordBar`: the
`rpl::variable`s `_recording`, `_inField`, `_lockShowing`, the plain field
`_recordingSamples`, and the pending hide-animation completion callback
(`visibilityAnimate(false, …)` stores one callback in `_showAnimation`;
starting a new animation replaces any previous callback). -/
structure BarState where
  recording : Bool
  inField : Bool
  recordingSamples : Int
  lockShowing : Bool
  pendingStop : Option Bool
deriving DecidableEq, Repr

namespace VoiceRecordBar

/-- `VoiceRecordBar::stopRecording(bool send)`: without `send` the capture
collaborator is stopped discarding its result; with `send` it is stopped
with a result callback that emits a `VoiceClipResult` only when
`data.bytes` is non-empty. -/
def stopRecording (freq : Int) (send : Bool) (data : CaptureResult) : List OutEvent :=
  if !send then [.captureStopDiscard]
  else
    .captureStopWithResult ::
      (if data.bytes = [] then []
       else [.voiceToSend data.bytes data.waveform (Duration freq data.samples)])

/-- `VoiceRecordBar::stop(bool send)` up to the start of the hide
animation: sets `_lockShowing = false` and calls
`visibilityAnimate(false, disappearanceCallback)`, whose
`_showAnimation.start` replaces any previously pending callback. -/
def stop (send : Bool) (s : BarState) : BarState :=
  { s with lockShowing := false, pendingStop := some send }

/-- The disappearance callback at the end of the hide animation:
`_recording = false` (firing `recordingStateChanges` when the value
changes), `stopRecording(send)`, `_inField = false`, the recording
lifetime is destroyed, `_recordingSamples = 0`, and
`_sendActionUpdates.fire({RecordVoice, -1})`. -/
def finalizeStop (freq : Int) (data : CaptureResult) (s : BarState) :
    BarState × List OutEvent :=
  match s.pendingStop with
  | none => (s, [])
  | some send =>
    ({ recording := false, inField := false, recordingSamples := 0,
       lockShowing := s.lockShowing, pendingStop := none },
     (if s.recording then [.recordingState false] else [])
       ++ stopRecording freq send data
       ++ [.sendAction (-1)])

/-- The mouse-release branch of the `_send->events()` handler installed by
`startRecording` (it only runs while `isTypeRecord()` and the lock is not
locked): `stop(_inField.current())`. -/
def mouseReleaseHandler (locked : Bool) (s : BarState) : BarState :=
  if locked then s else stop s.inField s

/-- `VoiceRecordBar::recordUpdated(quint16 level, int samples)`, reduced to
its stop decision: returns `some send` when `stop(send)` is called (i.e.
when `samples < 0 || samples >= kMaxSamples`, with
`send = samples > 0 && _inField.current()`), `none` otherwise. -/
def recordUpdated (freq : Int) (inField : Bool) (samples : Int) : Option Bool :=
  if samples < 0 || samples ≥ kMaxSamples freq
  then some (decide (samples > 0) && inField)
  else none

/-- `VoiceRecordBar::~VoiceRecordBar()`: if a recording session is active,
`stopRecording(false)`. -/
def destructor (freq : Int) (data : CaptureResult) (s : BarState) : List OutEvent :=
  if s.recording then stopRecording freq false data else []

end VoiceRecordBar

/-! ## The click-outside filter installed once the session is locked -/

/-- `enum class FilterType { Continue, ShowBox, Cancel }`. -/
inductive FilterType where
  | Continue : FilterType
  | ShowBox : FilterType
  | Cancel : FilterType
deriving DecidableEq, Repr

/-- The keys the filter distinguishes (`Qt::Key_Escape`, `Qt::Key_Enter`,
`Qt::Key_Return`, anything else). -/
inductive Key where
  | escape : Key
  | enter : Key
  | ret : Key
  | other : Key
deriving DecidableEq, Repr

/-- The event types `computeResult` distinguishes. -/
inductive QEventType where
  | keyPress (key : Key) : QEventType
  | contextMenu : QEventType
  | shortcut : QEventType
  | mouseButtonPress : QEventType
  | other : QEventType
deriving DecidableEq, Repr

namespace VoiceRecordBar

/-- The `computeResult` lambda of `installClickOutsideFilter`.  `noBox` is
`!(*box)` (no confirmation prompt outstanding), `escOverride` is
`_escFilter && _escFilter()`.  In the `isEnter && noBox` branch the real
code also calls `stop(true)` before returning `Cancel`. -/
def computeResult (locked noBox inField escOverride : Bool)
    (e : QEventType) : FilterType :=
  if !locked then .Continue
  else match e with
    | .keyPress key =>
      let isEsc := key == Key.escape
      let isEnter := key == Key.enter || key == Key.ret
      if noBox then
        if isEnter then .Cancel
        else if isEsc && escOverride then .Continue
        else .ShowBox
      else if isEsc || isEnter then .Continue else .ShowBox
    | .contextMenu => .ShowBox
    | .shortcut => .ShowBox
    | .mouseButtonPress =>
      if noBox && !inField then .ShowBox else .Continue
    | .other => .Continue

/-- The `showBox` lambda: if the weak pointer `*box` still holds a dialog,
return at once; otherwise create a new dialog and store it.  The state is
`Option Nat` (the outstanding dialog's identity); the returned `Bool` says
whether a new dialog was opened. -/
def showBox (box : Option Nat) (next : Nat) : Option Nat × Bool :=
  match box with
  | some b => (some b, false)
  | none => (some next, true)

/-- One pass of `filterCallback`: compute the `FilterType` for the event
and call `showBox` exactly in the `ShowBox` case. -/
def filterStep (locked inField escOverride : Bool) (box : Option Nat)
    (next : Nat) (e : QEventType) : Option Nat × Bool :=
  match computeResult locked box.isNone inField escOverride e with
  | .ShowBox => showBox box next
  | _ => (box, false)

end VoiceRecordBar

/-! ## Helper lemmas -/

namespace RecordLock

theorem requestPaintProgress_locked {s : LockState} (p : ℚ)
    (h : isLocked s = true) : requestPaintProgress p s = s := by
  simp [requestPaintProgress, h]

theorem run_locked {s : LockState} (ps : List ℚ) (h : isLocked s = true) :
    run s ps = s := by
  induction ps generalizing s with
  | nil => rfl
  | cons p ps ih =>
    simp only [run, requestPaintProgress_locked p h]
    exact ih h

theorem countLockFires_locked {s : LockState} (ps : List ℚ)
    (h : isLocked s = true) : countLockFires s ps = 0 := by
  induction ps generalizing s with
  | nil => rfl
  | cons p ps ih =>
    simp only [countLockFires, requestPaintProgress_locked p h]
    have hf : lockFires s s = false := by simp [lockFires]
    simp [hf, ih h]

theorem lockFires_true_of_step {s : LockState} {p : ℚ}
    (h0 : isLocked s = false) (h1 : isLocked (requestPaintProgress p s) = true) :
    lockFires s (requestPaintProgress p s) = true := by
  have hs : s.progress ≠ 1 := by simpa [isLocked] using h0
  have hs' : (requestPaintProgress p s).progress = 1 := by
    simpa [isLocked] using h1
  have hne : s.progress ≠ (requestPaintProgress p s).progress := by
    rw [hs']
    exact hs
  simp only [lockFires, isLocked, Bool.and_eq_true, decide_eq_true_eq]
  exact ⟨hne, hs'⟩

theorem countLockFires_le_one (s : LockState) (ps : List ℚ) :
    countLockFires s ps ≤ 1 := by
  induction ps generalizing s with
  | nil => simp [countLockFires]
  | cons p ps ih =>
    by_cases hl : isLocked s = true
    · rw [countLockFires_locked _ hl]
      exact Nat.zero_le 1
    · simp only [countLockFires]
      by_cases hl' : isLocked (requestPaintProgress p s) = true
      · have hf := lockFires_true_of_step (Bool.not_eq_true _ ▸ hl) hl'
        rw [if_pos hf, countLockFires_locked _ hl']
      · have hf : lockFires s (requestPaintProgress p s) = false := by
          simp only [lockFires, Bool.and_eq_false_iff]
          right
          exact Bool.not_eq_true _ ▸ hl'
        rw [if_neg (by simp [hf]), Nat.zero_add]
        exact ih _

theorem countLockFires_eq_one (s : LockState) (ps : List ℚ)
    (h0 : isLocked s = false) (h1 : isLocked (run s ps) = true) :
    countLockFires s ps = 1 := by
  induction ps generalizing s with
  | nil =>
    rw [run] at h1
    rw [h0] at h1
    exact absurd h1 (by simp)
  | cons p ps ih =>
    simp only [run] at h1
    simp only [countLockFires]
    by_cases hl' : isLocked (requestPaintProgress p s) = true
    · have hf := lockFires_true_of_step h0 hl'
      rw [if_pos hf, countLockFires_locked _ hl']
    · have hf : lockFires s (requestPaintProgress p s) = false := by
        simp only [lockFires, Bool.and_eq_false_iff]
        right
        exact Bool.not_eq_true _ ▸ hl'
      rw [if_neg (by simp [hf]), Nat.zero_add]
      exact ih _ (Bool.not_eq_true _ ▸ hl') h1

end RecordLock

/-! ## Claim theorems -/

/-- C2: within one recording session, once `RecordLock::isLocked()` is true
(stored progress is exactly 1), every later `requestPaintProgress` call
leaves the displayed progress unchanged at 1, and the `locks()` ("locked")
event fires at most once over any session trace — exactly once when the
session ends up locked. -/
theorem RecordLock_locked_pins_progress_and_fires_once
    (s : LockState) (p : ℚ) (ps : List ℚ)
    (hs : RecordLock.isLocked s = true) :
    RecordLock.requestPaintProgress p s = s ∧
    s.progress = 1 ∧
    RecordLock.countLockFires RecordLock.sessionStart ps ≤ 1 ∧
    (RecordLock.isLocked (RecordLock.run RecordLock.sessionStart ps) = true →
      RecordLock.countLockFires RecordLock.sessionStart ps = 1) := by
  refine ⟨RecordLock.requestPaintProgress_locked p hs, ?_,
    RecordLock.countLockFires_le_one _ _, fun h1 => ?_⟩
  · simpa [RecordLock.isLocked] using hs
  · exact RecordLock.countLockFires_eq_one _ _ (by decide) h1

/-- Witness for C2: the locked state `⟨false, 1⟩` absorbs an update, and
the session trace `[3, 1, 2]` locks and fires exactly once. -/
theorem RecordLock_locked_pins_progress_and_fires_once_witness :
    RecordLock.isLocked ⟨false, 1⟩ = true ∧
    RecordLock.requestPaintProgress 2 ⟨false, 1⟩ = (⟨false, 1⟩ : LockState) ∧
    RecordLock.countLockFires RecordLock.sessionStart [3, 1, 2] ≤ 1 ∧
    RecordLock.countLockFires RecordLock.sessionStart [3, 1, 2] = 1 :=
  ⟨by decide,
    (RecordLock_locked_pins_progress_and_fires_once ⟨false, 1⟩ 2 [3, 1, 2]
      (by decide)).1,
    (RecordLock_locked_pins_progress_and_fires_once ⟨false, 1⟩ 2 [3, 1, 2]
      (by decide)).2.2.1,
    (RecordLock_locked_pins_progress_and_fires_once ⟨false, 1⟩ 2 [3, 1, 2]
      (by decide)).2.2.2 (by decide)⟩

/-- C3: the lock progress handed to the lock widget always lies in `[0, 1]`
and depends only on the latest pointer position's vertical coordinate. -/
theorem computeAndSetLockProgress_clamped_latest_only
    (origin : Point) (lockHeight : Int) (g g' : Point) :
    0 ≤ computeAndSetLockProgress origin lockHeight g ∧
    computeAndSetLockProgress origin lockHeight g ≤ 1 ∧
    (g'.y = g.y →
      computeAndSetLockProgress origin lockHeight g'
        = computeAndSetLockProgress origin lockHeight g) := by
  refine ⟨?_, ?_, fun h => ?_⟩
  · simp only [computeAndSetLockProgress, mapFromGlobal, clamp]
    split_ifs <;> linarith
  · simp only [computeAndSetLockProgress, mapFromGlobal, clamp]
    split_ifs <;> linarith
  · simp only [computeAndSetLockProgress, mapFromGlobal, h]

/-- Witness for C3: a pointer dragged halfway up the lock height, at two
different horizontal positions with the same vertical offset. -/
theorem computeAndSetLockProgress_clamped_latest_only_witness :
    0 ≤ computeAndSetLockProgress ⟨0, 0⟩ 100 ⟨5, -50⟩ ∧
    computeAndSetLockProgress ⟨0, 0⟩ 100 ⟨5, -50⟩ ≤ 1 ∧
    computeAndSetLockProgress ⟨0, 0⟩ 100 ⟨99, -50⟩
      = computeAndSetLockProgress ⟨0, 0⟩ 100 ⟨5, -50⟩ :=
  ⟨(computeAndSetLockProgress_clamped_latest_only ⟨0, 0⟩ 100 ⟨5, -50⟩ ⟨99, -50⟩).1,
    (computeAndSetLockProgress_clamped_latest_only ⟨0, 0⟩ 100 ⟨5, -50⟩ ⟨99, -50⟩).2.1,
    (computeAndSetLockProgress_clamped_latest_only ⟨0, 0⟩ 100 ⟨5, -50⟩ ⟨99, -50⟩).2.2 rfl⟩

/-- C9: for a non-negative radius, `RecordLevel::inCircle` — bounding-box
reject, Manhattan accept, exact square test — agrees with the plain
Euclidean-distance predicate at every point. -/
theorem inCircle_eq_inCircleEuclid (radii center : Int) (p : Point)
    (hr : 0 ≤ radii) :
    inCircle radii center p = inCircleEuclid radii center p := by
  simp only [inCircle, inCircleEuclid]
  have hdx0 : (0:Int) ≤ |p.x - center| := abs_nonneg _
  have hdy0 : (0:Int) ≤ |p.y - center| := abs_nonneg _
  set dx := |p.x - center| with hdxdef
  set dy := |p.y - center| with hdydef
  by_cases h1 : dx > radii
  · have hgt : ¬ (dx * dx + dy * dy ≤ radii * radii) := by nlinarith
    simp [h1, hgt]
  · by_cases h2 : dy > radii
    · have hgt : ¬ (dx * dx + dy * dy ≤ radii * radii) := by nlinarith
      simp [h1, h2, hgt]
    · by_cases h3 : dx + dy ≤ radii
      · have hle : dx * dx + dy * dy ≤ radii * radii := by nlinarith
        simp [h1, h2, h3, hle]
      · simp [h1, h2, h3]

/-- Witness for C9: a point past the Manhattan bound but inside the circle
of radius 40 centred at (40, 40). -/
theorem inCircle_eq_inCircleEuclid_witness :
    (0:Int) ≤ 40 ∧ inCircle 40 40 ⟨12, 70⟩ = inCircleEuclid 40 40 ⟨12, 70⟩ :=
  ⟨by decide, inCircle_eq_inCircleEuclid 40 40 ⟨12, 70⟩ (by decide)⟩

/-- C1 counterexample: on a capture update delivering a negative sample
count while the pointer was last known inside the cancel field,
`recordUpdated` forces a stop that does NOT send (`stop(samples > 0 &&
_inField.current())` with `samples = -1` passes `false`), contradicting
"that stop sends if and only if the pointer was last known to be inside
the cancel field". -/
theorem recordUpdated_negative_sample_counterexample :
    (-1 : Int) < 0 ∧
    VoiceRecordBar.recordUpdated 48000 true (-1) = some false ∧
    VoiceRecordBar.recordUpdated 48000 true (-1) ≠ some true := by
  decide

/-- C1 (amended): if the delivered sample count is negative or at/over
`kMaxSamples`, `recordUpdated` forces a stop whose send flag is
`samples > 0 && _inField`; in particular a stop forced by reaching
`kMaxSamples` sends iff the pointer was last inside the cancel field,
while a stop forced by a negative sample count never sends.  Otherwise no
stop is forced. -/
theorem recordUpdated_forced_stop (freq : Int) (inField : Bool) (samples : Int)
    (hfreq : 0 < freq) :
    (samples < 0 ∨ samples ≥ kMaxSamples freq →
      VoiceRecordBar.recordUpdated freq inField samples
        = some (decide (samples > 0) && inField)) ∧
    (samples ≥ kMaxSamples freq →
      VoiceRecordBar.recordUpdated freq inField samples = some inField) ∧
    (samples < 0 →
      VoiceRecordBar.recordUpdated freq inField samples = some false) ∧
    (0 ≤ samples → samples < kMaxSamples freq →
      VoiceRecordBar.recordUpdated freq inField samples = none) := by
  have hk : 0 < kMaxSamples freq := by
    simp only [kMaxSamples, kAudioVoiceMaxLength]
    positivity
  refine ⟨fun h => ?_, fun h => ?_, fun h => ?_, fun h h' => ?_⟩
  · rcases h with h | h <;> simp [VoiceRecordBar.recordUpdated, h]
  · have hpos : samples > 0 := lt_of_lt_of_le hk h
    simp [VoiceRecordBar.recordUpdated, h, hpos]
  · have hneg : ¬ samples > 0 := by linarith
    simp [VoiceRecordBar.recordUpdated, h, hneg]
  · have h1 : ¬ samples < 0 := by linarith
    have h2 : ¬ samples ≥ kMaxSamples freq := by linarith
    simp [VoiceRecordBar.recordUpdated, h1, h2]

/-- Witness for C1 (amended): at the shipped 48000 Hz rate, exactly
`kMaxSamples` forces a sending stop with the pointer in field, a negative
count forces a non-sending stop, and an in-range count forces nothing. -/
theorem recordUpdated_forced_stop_witness :
    (0:Int) < 48000 ∧
    VoiceRecordBar.recordUpdated 48000 true 288000000 = some true ∧
    VoiceRecordBar.recordUpdated 48000 true (-5) = some false ∧
    VoiceRecordBar.recordUpdated 48000 true 48000 = none :=
  ⟨by decide,
    (recordUpdated_forced_stop 48000 true 288000000 (by decide)).2.1 (by decide),
    (recordUpdated_forced_stop 48000 true (-5) (by decide)).2.2.1 (by decide),
    (recordUpdated_forced_stop 48000 true 48000 (by decide)).2.2.2 (by decide)
      (by decide)⟩

/-- C4: a pointer release while unlocked with the pointer outside the
cancel field discards the session — the stop emits no `VoiceClipResult`,
yet recording-state-changed(false) still fires and the session state is
cleared. -/
theorem release_outside_unlocked_discards (freq : Int) (data : CaptureResult)
    (s : BarState) (hrec : s.recording = true) (hin : s.inField = false) :
    (VoiceRecordBar.finalizeStop freq data
        (VoiceRecordBar.mouseReleaseHandler false s)).2.filter OutEvent.isVoice
      = [] ∧
    OutEvent.recordingState false ∈
      (VoiceRecordBar.finalizeStop freq data
        (VoiceRecordBar.mouseReleaseHandler false s)).2 ∧
    (VoiceRecordBar.finalizeStop freq data
        (VoiceRecordBar.mouseReleaseHandler false s)).1.recording = false := by
  simp [VoiceRecordBar.mouseReleaseHandler, VoiceRecordBar.stop,
    VoiceRecordBar.finalizeStop, VoiceRecordBar.stopRecording, hin, hrec,
    OutEvent.isVoice]

/-- Witness for C4: a concrete active session, pointer outside the cancel
field, with a non-empty capture buffer available. -/
theorem release_outside_unlocked_discards_witness :
    (VoiceRecordBar.finalizeStop 48000 ⟨[7], [1], 96000⟩
        (VoiceRecordBar.mouseReleaseHandler false
          ⟨true, false, 123, true, none⟩)).2.filter OutEvent.isVoice = [] ∧
    OutEvent.recordingState false ∈
      (VoiceRecordBar.finalizeStop 48000 ⟨[7], [1], 96000⟩
        (VoiceRecordBar.mouseReleaseHandler false
          ⟨true, false, 123, true, none⟩)).2 ∧
    (VoiceRecordBar.finalizeStop 48000 ⟨[7], [1], 96000⟩
        (VoiceRecordBar.mouseReleaseHandler false
          ⟨true, false, 123, true, none⟩)).1.recording = false :=
  release_outside_unlocked_discards 48000 ⟨[7], [1], 96000⟩
    ⟨true, false, 123, true, none⟩ rfl rfl

/-- C5: `stop(send=true)` with an empty capture result buffer emits no
`VoiceClipResult` and surfaces nothing beyond the capture-stop command
itself. -/
theorem stopRecording_empty_buffer_no_emit (freq : Int) (data : CaptureResult)
    (h : data.bytes = []) :
    (VoiceRecordBar.stopRecording freq true data).filter OutEvent.isVoice = [] ∧
    VoiceRecordBar.stopRecording freq true data = [.captureStopWithResult] := by
  simp [VoiceRecordBar.stopRecording, h, OutEvent.isVoice]

/-- Witness for C5: an empty capture result. -/
theorem stopRecording_empty_buffer_no_emit_witness :
    (VoiceRecordBar.stopRecording 48000 true ⟨[], [], 0⟩).filter OutEvent.isVoice
      = [] ∧
    VoiceRecordBar.stopRecording 48000 true ⟨[], [], 0⟩
      = [.captureStopWithResult] :=
  stopRecording_empty_buffer_no_emit 48000 ⟨[], [], 0⟩ rfl

/-- C7: for an active session, `stop(send)` is idempotent — a second call
while the hide animation is pending replaces the pending completion, so the
final state and emissions equal those of a single call: the session is
cleared and exactly one recording-state-changed(false) fires. -/
theorem stop_idempotent (freq : Int) (data : CaptureResult) (send : Bool)
    (s : BarState) (hrec : s.recording = true) :
    VoiceRecordBar.stop send (VoiceRecordBar.stop send s)
      = VoiceRecordBar.stop send s ∧
    VoiceRecordBar.finalizeStop freq data
        (VoiceRecordBar.stop send (VoiceRecordBar.stop send s))
      = VoiceRecordBar.finalizeStop freq data (VoiceRecordBar.stop send s) ∧
    ((VoiceRecordBar.finalizeStop freq data (VoiceRecordBar.stop send s)).2.filter
        OutEvent.isRecStateFalse).length = 1 ∧
    (VoiceRecordBar.finalizeStop freq data
        (VoiceRecordBar.stop send s)).1.recording = false := by
  have hstop : VoiceRecordBar.stop send (VoiceRecordBar.stop send s)
      = VoiceRecordBar.stop send s := by
    simp [VoiceRecordBar.stop]
  refine ⟨hstop, by rw [hstop], ?_, ?_⟩
  · cases send <;>
      rcases hb : data.bytes with _ | ⟨b, bs⟩ <;>
        simp [VoiceRecordBar.stop, VoiceRecordBar.finalizeStop,
          VoiceRecordBar.stopRecording, hrec, hb, OutEvent.isRecStateFalse]
  · simp [VoiceRecordBar.stop, VoiceRecordBar.finalizeStop]

/-- Witness for C7: a concrete active session stopped twice with send. -/
theorem stop_idempotent_witness :
    VoiceRecordBar.stop true (VoiceRecordBar.stop true
        (⟨true, true, 5, true, none⟩ : BarState))
      = VoiceRecordBar.stop true ⟨true, true, 5, true, none⟩ ∧
    VoiceRecordBar.finalizeStop 48000 ⟨[9], [2], 48000⟩
        (VoiceRecordBar.stop true (VoiceRecordBar.stop true
          ⟨true, true, 5, true, none⟩))
      = VoiceRecordBar.finalizeStop 48000 ⟨[9], [2], 48000⟩
          (VoiceRecordBar.stop true ⟨true, true, 5, true, none⟩) ∧
    ((VoiceRecordBar.finalizeStop 48000 ⟨[9], [2], 48000⟩
        (VoiceRecordBar.stop true ⟨true, true, 5, true, none⟩)).2.filter
          OutEvent.isRecStateFalse).length = 1 ∧
    (VoiceRecordBar.finalizeStop 48000 ⟨[9], [2], 48000⟩
        (VoiceRecordBar.stop true ⟨true, true, 5, true, none⟩)).1.recording
      = false :=
  stop_idempotent 48000 ⟨[9], [2], 48000⟩ true ⟨true, true, 5, true, none⟩ rfl

/-- C8: with the session locked and a confirmation prompt outstanding, the
click-outside filter maps every event to the existing prompt unchanged and
never opens a second one. -/
theorem filterStep_single_box (inField escOverride : Bool) (b next : Nat)
    (e : QEventType) :
    VoiceRecordBar.filterStep true inField escOverride (some b) next e
      = (some b, false) := by
  cases e with
  | keyPress key =>
    cases key <;>
      simp [VoiceRecordBar.filterStep, VoiceRecordBar.computeResult,
        VoiceRecordBar.showBox]
  | contextMenu =>
    simp [VoiceRecordBar.filterStep, VoiceRecordBar.computeResult,
      VoiceRecordBar.showBox]
  | shortcut =>
    simp [VoiceRecordBar.filterStep, VoiceRecordBar.computeResult,
      VoiceRecordBar.showBox]
  | mouseButtonPress =>
    simp [VoiceRecordBar.filterStep, VoiceRecordBar.computeResult,
      VoiceRecordBar.showBox]
  | other =>
    simp [VoiceRecordBar.filterStep, VoiceRecordBar.computeResult,
      VoiceRecordBar.showBox]

/-- C10: destroying the bar during an active session stops the capture
backend discarding its result — no `VoiceClipResult` can be emitted by the
destructor. -/
theorem destructor_stops_discarding (freq : Int) (data : CaptureResult)
    (s : BarState) :
    (VoiceRecordBar.destructor freq data s).filter OutEvent.isVoice = [] ∧
    (s.recording = true →
      VoiceRecordBar.destructor freq data s = [.captureStopDiscard]) := by
  cases hr : s.recording <;>
    simp [VoiceRecordBar.destructor, VoiceRecordBar.stopRecording, hr,
      OutEvent.isVoice]

/-- Witness for C10: a concrete active session destroyed with a non-empty
capture buffer pending. -/
theorem destructor_stops_discarding_witness :
    (VoiceRecordBar.destructor 48000 ⟨[3], [4], 48000⟩
        ⟨true, true, 42, true, none⟩).filter OutEvent.isVoice = [] ∧
    VoiceRecordBar.destructor 48000 ⟨[3], [4], 48000⟩
        ⟨true, true, 42, true, none⟩ = [.captureStopDiscard] :=
  ⟨(destructor_stops_discarding 48000 ⟨[3], [4], 48000⟩
      ⟨true, true, 42, true, none⟩).1,
    (destructor_stops_discarding 48000 ⟨[3], [4], 48000⟩
      ⟨true, true, 42, true, none⟩).2 rfl⟩

/-- C6: `FormatVoiceDuration` maps sample count 0 to "0:00.0" and one
second's worth of samples to "0:01.0", and for every non-negative sample
count the output is the whole-second text, the decimal point, and exactly
one digit — the floor of the tenths of a second, reduced mod 10. -/
theorem FormatVoiceDuration_precision (freq samples : Int) (dp : String)
    (hfreq : 0 < freq) (hdp : dp = ".") (_hsamples : 0 ≤ samples) :
    FormatVoiceDuration freq dp 0 = "0:00.0" ∧
    FormatVoiceDuration freq dp freq = "0:01.0" ∧
    FormatVoiceDuration freq dp samples
      = FormatDurationText (kPrecision * samples / freq / kPrecision) ++ dp
          ++ toString (kPrecision * samples / freq % kPrecision) ∧
    0 ≤ kPrecision * samples / freq % kPrecision ∧
    kPrecision * samples / freq % kPrecision < 10 ∧
    (toString (kPrecision * samples / freq % kPrecision)).length = 1 := by
  subst hdp
  have hfz : freq ≠ 0 := ne_of_gt hfreq
  have hm0 : 0 ≤ kPrecision * samples / freq % kPrecision :=
    Int.emod_nonneg _ (by norm_num [kPrecision])
  have hm1 : kPrecision * samples / freq % kPrecision < 10 := by
    simpa [kPrecision] using
      Int.emod_lt_of_pos (kPrecision * samples / freq)
        (show (0:Int) < kPrecision by norm_num [kPrecision])
  refine ⟨?_, ?_, rfl, hm0, hm1, ?_⟩
  · have h0 : kPrecision * (0:Int) / freq = 0 := by simp
    simp only [FormatVoiceDuration, h0]
    decide
  · have h1 : kPrecision * freq / freq = kPrecision :=
      Int.mul_ediv_cancel _ hfz
    simp only [FormatVoiceDuration, h1]
    decide
  · generalize hgen : kPrecision * samples / freq % kPrecision = d at hm0 hm1
    have hcases : d = 0 ∨ d = 1 ∨ d = 2 ∨ d = 3 ∨ d = 4 ∨ d = 5 ∨ d = 6
        ∨ d = 7 ∨ d = 8 ∨ d = 9 := by omega
    rcases hcases with h|h|h|h|h|h|h|h|h|h <;> subst h <;> decide

/-- Witness for C6: the shipped 48000 Hz rate, a "." decimal point, and
1.5 seconds' worth of samples. -/
theorem FormatVoiceDuration_precision_witness :
    FormatVoiceDuration 48000 "." 0 = "0:00.0" ∧
    FormatVoiceDuration 48000 "." 48000 = "0:01.0" ∧
    FormatVoiceDuration 48000 "." 72000
      = FormatDurationText (kPrecision * 72000 / 48000 / kPrecision) ++ "."
          ++ toString (kPrecision * 72000 / 48000 % kPrecision) ∧
    0 ≤ kPrecision * 72000 / 48000 % kPrecision ∧
    kPrecision * 72000 / 48000 % kPrecision < 10 ∧
    (toString (kPrecision * 72000 / 48000 % kPrecision)).length = 1 :=
  FormatVoiceDuration_precision 48000 72000 "." (by decide) rfl (by decide)

end VoiceBar
